import Mathlib

/-!
Verification development for the LEDAX-UC map front-end
(`src/static/script.js`).

The JavaScript source is shallowly embedded as executable Lean
definitions:

* JS strings are Lean `String`s; the JS built-ins used by the source
  (`trim`, `toLowerCase`, `includes`, array `includes`, `localeCompare`)
  are modelled by structurally recursive functions over the underlying
  character lists, so that everything evaluates inside the kernel.
  `toLowerCase` is modelled on the ASCII range (the only range the
  source's data and the claims exercise); `localeCompare` is modelled as
  code-point lexicographic comparison.
* JS `undefined`/missing record fields become `Option`; JS truthiness of
  strings (`undefined`, `null` and `""` are falsy) and of numbers
  (`undefined`, `null` and `0` are falsy) is modelled explicitly.
* Numeric latitude/longitude values are modelled as rationals; only
  their presence and zero-ness matter to the claims (JS `NaN` is not
  modelled).
* `Array.prototype.sort`, which is guaranteed stable by the ECMAScript
  specification, is modelled by `List.mergeSort`, which is stable.
* The two startup fetches of `carregarDados` are modelled as `Except`
  values supplied to the function; the DOM form state read by
  `lerFiltrosForm` is modelled as an explicit `Filtros` record.
-/

/-- Models `Char` lowercasing as performed by JS `toLowerCase` on the
ASCII range: `A`–`Z` maps to `a`–`z`, everything else is unchanged. -/
def jsCharToLower (c : Char) : Char :=
  if 'A' ≤ c ∧ c ≤ 'Z' then Char.ofNat (c.toNat + 32) else c

/-- Models `String.prototype.toLowerCase` (ASCII range). -/
def jsToLower (s : String) : String :=
  String.mk (s.data.map jsCharToLower)

/-- Models `String.prototype.trim`: removes leading and trailing
whitespace. -/
def jsTrim (s : String) : String :=
  String.mk (((s.data.dropWhile Char.isWhitespace).reverse.dropWhile
    Char.isWhitespace).reverse)

/-- `isPrefixList pat l` is true when `pat` is a prefix of `l`. -/
def isPrefixList : List Char → List Char → Bool
  | [], _ => true
  | _ :: _, [] => false
  | a :: as, b :: bs => if a = b then isPrefixList as bs else false

/-- `isInfixList pat l` is true when `pat` occurs contiguously in `l`. -/
def isInfixList (pat : List Char) : List Char → Bool
  | [] => pat.isEmpty
  | c :: rest => isPrefixList pat (c :: rest) || isInfixList pat rest

/-- Models `s.includes(pat)` for JS strings. -/
def jsIncludes (s pat : String) : Bool :=
  isInfixList pat.data s.data

/-- Lexicographic (code-point) comparison on character lists; `lexLe x y`
is true when `x` collates at or before `y`. This models the total
preorder that `localeCompare` induces in the sort comparators of
`applyFilters`. -/
def lexLe : List Char → List Char → Bool
  | [], _ => true
  | _ :: _, [] => false
  | a :: as, b :: bs => if a = b then lexLe as bs else decide (a < b)

/-- String comparison derived from `lexLe`. -/
def strLe (a b : String) : Bool :=
  lexLe a.data b.data

/-- JS truthiness of an optional string: `undefined` and `""` are
falsy. -/
def truthy : Option String → Bool
  | none => false
  | some s => decide (s ≠ "")

/-- JS truthiness of an optional number: `undefined` and `0` are
falsy. -/
def truthyNum : Option ℚ → Bool
  | none => false
  | some q => decide (q ≠ 0)

/-- Models `safeText` from the source: `(s || '').toString()`. -/
def safeText : Option String → String
  | none => ""
  | some s => s

/-- Models `normalizeString` from the source:
`safeText(s).trim().toLowerCase()` (here taking the string directly; all
call sites in the source first guard the optional field by truthiness,
which the embedding mirrors). -/
def normalizeString (s : String) : String :=
  jsToLower (jsTrim s)

/-- Models `x || dflt` for a JS string-valued expression `x`. -/
def jsOrStr (o : Option String) (dflt : String) : String :=
  if truthy o then safeText o else dflt

/-- Models `arr.includes(x)` for a JS array of strings (strict `===`
equality). -/
def includesStr (l : List String) (x : String) : Bool :=
  match l with
  | [] => false
  | a :: rest => decide (a = x) || includesStr rest x

/-- A unit record (`unidade`) as served by `/unidades/all`: every field
the script reads is optional, because the data is externally supplied
and the script guards each access. -/
structure Unidade where
  nome : Option String
  rede : Option String
  cnpj : Option String
  endereco_original : Option String
  estado : Option String
  latitude : Option ℚ
  longitude : Option ℚ
deriving DecidableEq

/-- The filter criteria produced by `lerFiltrosForm`: selected network
names (`redes`), selected state (`estado`, `"Todos"` meaning all), the
CNPJ and name query texts (already trimmed by `lerFiltrosForm`), and the
sort mode (`ordenar`). -/
structure Filtros where
  redes : List String
  estado : String
  cnpj : String
  nome : String
  ordenar : String
deriving DecidableEq

/-- Network-membership predicate from `applyFilters`:
`f.redes.includes(u.rede)` (an absent `rede` matches nothing, since
`===` never equates `undefined` with a string). -/
def redeMatch (f : Filtros) (u : Unidade) : Bool :=
  match u.rede with
  | none => false
  | some r => includesStr f.redes r

/-- State predicate from `applyFilters`:
`(u.estado && normalizeString(u.estado) === normalizeString(f.estado)) ||
(u.endereco_original &&
 normalizeString(u.endereco_original).includes('-' + normalizeString(f.estado)))`. -/
def estadoMatch (f : Filtros) (u : Unidade) : Bool :=
  (truthy u.estado &&
    decide (normalizeString (safeText u.estado) = normalizeString f.estado)) ||
  (truthy u.endereco_original &&
    jsIncludes (normalizeString (safeText u.endereco_original))
      ("-" ++ normalizeString f.estado))

/-- CNPJ predicate from `applyFilters`:
`u.cnpj && u.cnpj.includes(f.cnpj)`. -/
def cnpjMatch (f : Filtros) (u : Unidade) : Bool :=
  truthy u.cnpj && jsIncludes (safeText u.cnpj) f.cnpj

/-- Name predicate from `applyFilters`:
`u.nome && normalizeString(u.nome).includes(normalizeString(f.nome))`. -/
def nomeMatch (f : Filtros) (u : Unidade) : Bool :=
  truthy u.nome &&
    jsIncludes (normalizeString (safeText u.nome)) (normalizeString f.nome)

/-- One guarded filtering pass of `applyFilters`: the body of
`if (guard) { resultado = resultado.filter(pred); }`. -/
def condFilter (g : Bool) (p : Unidade → Bool) (l : List Unidade) : List Unidade :=
  if g then l.filter p else l

/-- The network stage of `applyFilters`: applied only when
`f.redes.length` is truthy. -/
def filtroRedes (f : Filtros) (l : List Unidade) : List Unidade :=
  condFilter (f.redes.length != 0) (redeMatch f) l

/-- The state stage of `applyFilters`: applied only when `f.estado` is
truthy and different from `'Todos'`. -/
def filtroEstado (f : Filtros) (l : List Unidade) : List Unidade :=
  condFilter (decide (f.estado ≠ "") && decide (f.estado ≠ "Todos"))
    (estadoMatch f) l

/-- The CNPJ stage of `applyFilters`: applied only when `f.cnpj` is
truthy. -/
def filtroCnpj (f : Filtros) (l : List Unidade) : List Unidade :=
  condFilter (decide (f.cnpj ≠ "")) (cnpjMatch f) l

/-- The name stage of `applyFilters`: applied only when `f.nome` is
truthy. -/
def filtroNome (f : Filtros) (l : List Unidade) : List Unidade :=
  condFilter (decide (f.nome ≠ "")) (nomeMatch f) l

/-- The sort key `(a.nome || '')` used by the name sort modes. -/
def chaveNome (u : Unidade) : String :=
  jsOrStr u.nome ""

/-- The sort key `(a.rede || '')` used by the network sort modes. -/
def chaveRede (u : Unidade) : String :=
  jsOrStr u.rede ""

/-- The `switch (f.ordenar)` sorting step of `applyFilters`: a stable
sort by the selected key, ascending or descending; any unrecognized
mode leaves the list unsorted. -/
def sortStep (f : Filtros) (l : List Unidade) : List Unidade :=
  if f.ordenar = "nome_az" then
    l.mergeSort (fun a b => strLe (chaveNome a) (chaveNome b))
  else if f.ordenar = "nome_za" then
    l.mergeSort (fun a b => strLe (chaveNome b) (chaveNome a))
  else if f.ordenar = "rede_az" then
    l.mergeSort (fun a b => strLe (chaveRede a) (chaveRede b))
  else if f.ordenar = "rede_za" then
    l.mergeSort (fun a b => strLe (chaveRede b) (chaveRede a))
  else l

/-- The four sequential filtering stages of `applyFilters`, in source
order: networks, state, CNPJ, name. -/
def filtrar (f : Filtros) (l : List Unidade) : List Unidade :=
  filtroNome f (filtroCnpj f (filtroEstado f (filtroRedes f l)))

/-- The pure core of `applyFilters`: starting from a copy of the full
unit list, apply the four guarded filters and then the sort step. -/
def applyFilters (unidades : List Unidade) (f : Filtros) : List Unidade :=
  sortStep f (filtrar f unidades)

/-- The key selected by the sort mode of `f` (name key for the name
modes and for unrecognized modes, network key for the network modes);
used to state stability. -/
def chaveOrdenacao (f : Filtros) (u : Unidade) : String :=
  if f.ordenar = "rede_az" ∨ f.ordenar = "rede_za" then chaveRede u
  else chaveNome u

/-- The comparator selected by the sort mode of `f`. -/
def sortLe (f : Filtros) (a b : Unidade) : Bool :=
  if f.ordenar = "nome_za" ∨ f.ordenar = "rede_za" then
    strLe (chaveOrdenacao f b) (chaveOrdenacao f a)
  else
    strLe (chaveOrdenacao f a) (chaveOrdenacao f b)

/-- Models `REDE_COLORS[u.rede] || REDE_COLORS.DEFAULT`. -/
def redeColor : Option String → String
  | some "Novo Mix" => "#1f77b4"
  | some "Hiperideal" => "#ff7f0e"
  | some "Rede Mix" => "#9467bd"
  | _ => "#2ca02c"

/-- The name field of the popup: `u.nome || ''`. -/
def popupNome (u : Unidade) : String :=
  jsOrStr u.nome ""

/-- The network field of the popup: `u.rede || 'N/A'`. -/
def popupRede (u : Unidade) : String :=
  jsOrStr u.rede "N/A"

/-- The address field of the popup: `u.endereco_original || 'N/A'`. -/
def popupEndereco (u : Unidade) : String :=
  jsOrStr u.endereco_original "N/A"

/-- The CNPJ field of the popup: `u.cnpj || 'N/A'`. -/
def popupCnpj (u : Unidade) : String :=
  jsOrStr u.cnpj "N/A"

/-- Models `makePopupHtml`: the popup template literal with the four
field interpolations. -/
def makePopupHtml (u : Unidade) : String :=
  "\n    <div class=\"popup-title\">" ++ popupNome u ++
  "</div>\n    <div style=\"font-size:.9rem;margin-top:6px;\">\n      <strong>Rede:</strong> " ++
  popupRede u ++
  "\n    </div>\n    <div style=\"font-size:.9rem;\">\n      <strong>Endereço:</strong> " ++
  popupEndereco u ++
  "\n    </div>\n    <div style=\"font-size:.85rem;color:var(--muted);margin-top:6px;\">\n      <strong>CNPJ:</strong> " ++
  popupCnpj u ++
  "\n    </div>\n  "

/-- A rendered Leaflet marker: position, network fill color and bound
popup HTML. -/
structure Marker where
  lat : ℚ
  lng : ℚ
  color : String
  popup : String
deriving DecidableEq

/-- Models `criarMarcador`: `if (!u.latitude || !u.longitude) return
null;` and otherwise a marker at the unit's position with the network
color and the popup. -/
def criarMarcador (u : Unidade) : Option Marker :=
  if !truthyNum u.latitude || !truthyNum u.longitude then none
  else some
    { lat := (u.latitude.getD 0)
      lng := (u.longitude.getD 0)
      color := redeColor u.rede
      popup := makePopupHtml u }

/-- The marker-building loop of `atualizarMapa`: one marker per unit for
which `criarMarcador` succeeds, in list order. -/
def markersOf (l : List Unidade) : List Marker :=
  l.filterMap criarMarcador

/-- The module-level mutable state touched by `applyFilters`: the full
unit list `unidades`, the displayed list `unidadesAtuais` (written by
`atualizarMapa`) and the status text. -/
structure AppState where
  unidades : List Unidade
  unidadesAtuais : List Unidade
  status : String
deriving DecidableEq

/-- Models one `applyFilters` pass over the global state: the filtered
and sorted result is computed from a copy of `unidades`, stored into
`unidadesAtuais` by `atualizarMapa`, and the status text is updated;
`unidades` itself is never written. -/
def applyFiltersState (s : AppState) (f : Filtros) : AppState :=
  { unidades := s.unidades
    unidadesAtuais := applyFilters s.unidades f
    status := "Dados atualizados." }

/-- The observable outcome of the initial load: final status text, the
in-memory unit list, and the markers rendered on the map. -/
structure LoadResult where
  status : String
  unidades : List Unidade
  markers : List Marker
deriving DecidableEq

/-- Models `carregarDados`: the two awaited fetch-and-parse steps are
supplied as `Except` values (`.error` covering both network failure and
JSON parse failure). On the first failure the `catch` block sets the
error status; `unidades` keeps its initial empty value and no markers
are rendered. On success the unit list is stored and one
`applyFilters` pass renders the markers; `f` is the form state read at
that moment. -/
def carregarDados (fetchRedes : Except Unit (List String))
    (fetchAll : Except Unit (List Unidade)) (f : Filtros) : LoadResult :=
  match fetchRedes with
  | .error _ => { status := "Erro ao carregar dados.", unidades := [], markers := [] }
  | .ok _ =>
    match fetchAll with
    | .error _ => { status := "Erro ao carregar dados.", unidades := [], markers := [] }
    | .ok us =>
      { status := "Dados carregados."
        unidades := us
        markers := markersOf (applyFilters us f) }

/-- Per the spec's words for the name filter (claim C4): case-insensitive
substring containment, both sides lowercased and trimmed, on a unit with
a (truthy) name. -/
def nomeMatchSpec (f : Filtros) (u : Unidade) : Bool :=
  match u.nome with
  | none => false
  | some s =>
    decide (s ≠ "") && jsIncludes (jsToLower (jsTrim s)) (jsToLower (jsTrim f.nome))

/-- Per the amended claim C4 for the network filter: case-sensitive exact
membership of the unit's network in the selected set. -/
def redeMatchSpec (f : Filtros) (u : Unidade) : Bool :=
  match u.rede with
  | none => false
  | some r => includesStr f.redes r

/-- Per the spec's words for the tax-identifier filter (claim C4):
case-sensitive substring containment of the criteria text exactly as it
stands in the criteria, on a unit with a (truthy) CNPJ. -/
def cnpjMatchSpec (f : Filtros) (u : Unidade) : Bool :=
  match u.cnpj with
  | none => false
  | some s => decide (s ≠ "") && jsIncludes s f.cnpj

/-- The state predicate as claim C5 states it: the unit's state field
case-insensitively equals the selected state (no trimming), or the
address case-insensitively contains `-{state}` (no trimming). -/
def estadoMatchClaim (f : Filtros) (u : Unidade) : Bool :=
  (match u.estado with
   | none => false
   | some s => decide (jsToLower s = jsToLower f.estado)) ||
  (match u.endereco_original with
   | none => false
   | some e => jsIncludes (jsToLower e) ("-" ++ jsToLower f.estado))

/-- The state predicate per the amended claim C5: both sides are trimmed
and lowercased before the comparison or containment test, and the unit's
field must be present and non-empty. -/
def estadoMatchAmended (f : Filtros) (u : Unidade) : Bool :=
  (match u.estado with
   | none => false
   | some s =>
     decide (s ≠ "") && decide (jsToLower (jsTrim s) = jsToLower (jsTrim f.estado))) ||
  (match u.endereco_original with
   | none => false
   | some e =>
     decide (e ≠ "") &&
       jsIncludes (jsToLower (jsTrim e)) ("-" ++ jsToLower (jsTrim f.estado)))

/-- A fully populated sample unit. -/
def uAlpha : Unidade :=
  { nome := some "Alpha", rede := some "Novo Mix", cnpj := some "123"
    endereco_original := some "Rua X - Salvador -BA", estado := some "BA"
    latitude := some 1, longitude := some 1 }

/-- A unit whose network name differs from a selected network only in
case. -/
def uNovoMixMinusculo : Unidade :=
  { nome := some "Alpha", rede := some "novo mix", cnpj := none
    endereco_original := none, estado := none, latitude := none, longitude := none }

/-- A unit sitting on the equator: latitude `0` is present but falsy in
JS. -/
def uEquador : Unidade :=
  { nome := some "Eq", rede := some "Novo Mix", cnpj := none
    endereco_original := none, estado := none
    latitude := some 0, longitude := some 1 }

/-- A unit with every field absent. -/
def uVazia : Unidade :=
  { nome := none, rede := none, cnpj := none, endereco_original := none
    estado := none, latitude := none, longitude := none }

/-- A unit whose state field carries surrounding whitespace. -/
def uEstadoEspacos : Unidade :=
  { nome := none, rede := none, cnpj := none, endereco_original := none
    estado := some " SP ", latitude := none, longitude := none }

/-- Criteria with no network selected and every other filter disabled
(state `'Todos'`, empty texts, unrecognized sort mode). -/
def fVazio : Filtros :=
  { redes := [], estado := "Todos", cnpj := "", nome := "", ordenar := "" }

/-- Criteria selecting only the upper-cased network name `"NOVO MIX"`. -/
def fRedeMaiuscula : Filtros :=
  { redes := ["NOVO MIX"], estado := "Todos", cnpj := "", nome := "", ordenar := "" }

/-- Criteria selecting the state `"SP"` and nothing else. -/
def fEstadoSP : Filtros :=
  { redes := [], estado := "SP", cnpj := "", nome := "", ordenar := "" }

/-- `lexLe` is reflexive. -/
theorem lexLe_refl : ∀ x : List Char, lexLe x x = true
  | [] => rfl
  | a :: as => by simp [lexLe, lexLe_refl as]

/-- `lexLe` is transitive. -/
theorem lexLe_trans : ∀ x y z : List Char,
    lexLe x y = true → lexLe y z = true → lexLe x z = true
  | [], _, _, _, _ => rfl
  | _ :: _, [], _, h1, _ => by simp [lexLe] at h1
  | _ :: _, _ :: _, [], _, h2 => by simp [lexLe] at h2
  | a :: as, b :: bs, c :: cs, h1, h2 => by
    simp only [lexLe] at h1 h2 ⊢
    by_cases hab : a = b
    · subst hab
      rw [if_pos rfl] at h1
      by_cases hbc : a = c
      · subst hbc
        rw [if_pos rfl] at h2 ⊢
        exact lexLe_trans as bs cs h1 h2
      · rw [if_neg hbc] at h2 ⊢
        exact h2
    · rw [if_neg hab] at h1
      have hab2 : a < b := of_decide_eq_true h1
      by_cases hbc : b = c
      · subst hbc
        rw [if_neg hab]
        exact decide_eq_true hab2
      · rw [if_neg hbc] at h2
        have hbc2 : b < c := of_decide_eq_true h2
        have hac : a < c := lt_trans hab2 hbc2
        rw [if_neg (ne_of_lt hac)]
        exact decide_eq_true hac

/-- `lexLe` is total. -/
theorem lexLe_total : ∀ x y : List Char, (lexLe x y || lexLe y x) = true
  | [], _ => by simp [lexLe]
  | _ :: _, [] => by simp [lexLe]
  | a :: as, b :: bs => by
    simp only [lexLe]
    by_cases hab : a = b
    · subst hab
      rw [if_pos rfl, if_pos rfl]
      exact lexLe_total as bs
    · rw [if_neg hab, if_neg (Ne.symm hab)]
      rcases lt_or_gt_of_ne hab with h | h
      · simp [decide_eq_true h]
      · simp [decide_eq_true h]

/-- `strLe` is reflexive. -/
theorem strLe_refl (s : String) : strLe s s = true :=
  lexLe_refl s.data

/-- The ascending comparator on any string key is transitive. -/
theorem keyLe_trans (key : Unidade → String) : ∀ a b c : Unidade,
    strLe (key a) (key b) = true → strLe (key b) (key c) = true →
    strLe (key a) (key c) = true :=
  fun _ _ _ h1 h2 => lexLe_trans _ _ _ h1 h2

/-- The ascending comparator on any string key is total. -/
theorem keyLe_total (key : Unidade → String) : ∀ a b : Unidade,
    (strLe (key a) (key b) || strLe (key b) (key a)) = true :=
  fun _ _ => lexLe_total _ _

/-- The descending comparator on any string key is transitive. -/
theorem keyGe_trans (key : Unidade → String) : ∀ a b c : Unidade,
    strLe (key b) (key a) = true → strLe (key c) (key b) = true →
    strLe (key c) (key a) = true :=
  fun _ _ _ h1 h2 => lexLe_trans _ _ _ h2 h1

/-- The descending comparator on any string key is total. -/
theorem keyGe_total (key : Unidade → String) : ∀ a b : Unidade,
    (strLe (key b) (key a) || strLe (key a) (key b)) = true :=
  fun _ _ => by rw [Bool.or_comm]; exact lexLe_total _ _

/-- Stability of `mergeSort`, phrased on equivalence classes: filtering
the sorted list by any predicate whose satisfying elements are mutually
tied under the comparator gives the same list as filtering the input. -/
theorem mergeSort_filter_of_tied {α : Type} {le : α → α → Bool}
    (htrans : ∀ a b c, le a b = true → le b c = true → le a c = true)
    (htotal : ∀ a b, (le a b || le b a) = true)
    (p : α → Bool) (htie : ∀ a b, p a = true → p b = true → le a b = true)
    (l : List α) : (l.mergeSort le).filter p = l.filter p := by
  have hpw : List.Pairwise (fun a b => le a b = true) (l.filter p) :=
    List.pairwise_of_forall_mem_list fun a ha b hb =>
      htie a b (List.of_mem_filter ha) (List.of_mem_filter hb)
  have hsub1 : (l.filter p).Sublist (l.mergeSort le) :=
    List.sublist_mergeSort htrans htotal hpw (List.filter_sublist l)
  have hfp : (l.filter p).filter p = l.filter p :=
    List.filter_eq_self.mpr fun a ha => List.of_mem_filter ha
  have hsub2 : (l.filter p).Sublist ((l.mergeSort le).filter p) :=
    hfp ▸ hsub1.filter p
  have hlen : ((l.mergeSort le).filter p).length = (l.filter p).length :=
    ((List.mergeSort_perm l le).filter p).length_eq
  exact (hsub2.eq_of_length hlen.symm).symm

/-- Ascending key sort preserves the relative order of units sharing a
key value. -/
theorem mergeSort_key_stable (key : Unidade → String) (k : String)
    (l : List Unidade) :
    (l.mergeSort (fun a b => strLe (key a) (key b))).filter
        (fun v => decide (key v = k)) =
      l.filter (fun v => decide (key v = k)) :=
  mergeSort_filter_of_tied (keyLe_trans key) (keyLe_total key) _
    (fun a b ha hb => by
      rw [show key a = k from of_decide_eq_true ha,
        show key b = k from of_decide_eq_true hb]
      exact strLe_refl k) l

/-- Descending key sort preserves the relative order of units sharing a
key value. -/
theorem mergeSort_key_stable_desc (key : Unidade → String) (k : String)
    (l : List Unidade) :
    (l.mergeSort (fun a b => strLe (key b) (key a))).filter
        (fun v => decide (key v = k)) =
      l.filter (fun v => decide (key v = k)) :=
  mergeSort_filter_of_tied (keyGe_trans key) (keyGe_total key) _
    (fun a b ha hb => by
      rw [show key a = k from of_decide_eq_true ha,
        show key b = k from of_decide_eq_true hb]
      exact strLe_refl k) l

/-- Membership in a guarded filter pass implies membership in the
input. -/
theorem condFilter_subset {g : Bool} {p : Unidade → Bool} {l : List Unidade}
    {u : Unidade} (h : u ∈ condFilter g p l) : u ∈ l := by
  unfold condFilter at h
  split at h
  · exact List.mem_of_mem_filter h
  · exact h

/-- A survivor of an active guarded filter pass satisfies its
predicate. -/
theorem condFilter_pred {g : Bool} {p : Unidade → Bool} {l : List Unidade}
    {u : Unidade} (h : u ∈ condFilter g p l) (hg : g = true) : p u = true := by
  unfold condFilter at h
  rw [hg, if_pos rfl] at h
  exact List.of_mem_filter h

/-- A guarded filter pass leaves a list unchanged when every element
satisfies the predicate whenever the guard is active. -/
theorem condFilter_eq_self {g : Bool} {p : Unidade → Bool} {l : List Unidade}
    (h : ∀ u ∈ l, g = true → p u = true) : condFilter g p l = l := by
  unfold condFilter
  split
  · next hg => exact List.filter_eq_self.mpr fun u hu => h u hu hg
  · rfl

/-- An active guarded filter pass is a plain filter. -/
theorem condFilter_of_true {g : Bool} {p : Unidade → Bool} {l : List Unidade}
    (hg : g = true) : condFilter g p l = l.filter p := by
  unfold condFilter
  rw [hg, if_pos rfl]

/-- A guarded filter pass yields a sublist of its input. -/
theorem condFilter_sublist (g : Bool) (p : Unidade → Bool) (l : List Unidade) :
    (condFilter g p l).Sublist l := by
  unfold condFilter
  split
  · exact List.filter_sublist l
  · exact List.Sublist.refl l

/-- Membership passes through the name stage. -/
theorem mem_of_filtroNome {f : Filtros} {l : List Unidade} {u : Unidade}
    (h : u ∈ filtroNome f l) : u ∈ l :=
  condFilter_subset h

/-- Membership passes through the CNPJ stage. -/
theorem mem_of_filtroCnpj {f : Filtros} {l : List Unidade} {u : Unidade}
    (h : u ∈ filtroCnpj f l) : u ∈ l :=
  condFilter_subset h

/-- Membership passes through the state stage. -/
theorem mem_of_filtroEstado {f : Filtros} {l : List Unidade} {u : Unidade}
    (h : u ∈ filtroEstado f l) : u ∈ l :=
  condFilter_subset h

/-- Membership passes through the network stage. -/
theorem mem_of_filtroRedes {f : Filtros} {l : List Unidade} {u : Unidade}
    (h : u ∈ filtroRedes f l) : u ∈ l :=
  condFilter_subset h

/-- Every survivor of the four filter stages came from the input
list. -/
theorem mem_of_filtrar {f : Filtros} {l : List Unidade} {u : Unidade}
    (h : u ∈ filtrar f l) : u ∈ l :=
  mem_of_filtroRedes (mem_of_filtroEstado (mem_of_filtroCnpj (mem_of_filtroNome h)))

/-- A survivor of the four stages satisfies the network predicate when
that stage is active. -/
theorem filtrar_redeMatch {f : Filtros} {l : List Unidade} {u : Unidade}
    (h : u ∈ filtrar f l) (hg : (f.redes.length != 0) = true) :
    redeMatch f u = true :=
  condFilter_pred (mem_of_filtroEstado (mem_of_filtroCnpj (mem_of_filtroNome h))) hg

/-- A survivor of the four stages satisfies the state predicate when
that stage is active. -/
theorem filtrar_estadoMatch {f : Filtros} {l : List Unidade} {u : Unidade}
    (h : u ∈ filtrar f l)
    (hg : (decide (f.estado ≠ "") && decide (f.estado ≠ "Todos")) = true) :
    estadoMatch f u = true :=
  condFilter_pred (mem_of_filtroCnpj (mem_of_filtroNome h)) hg

/-- A survivor of the four stages satisfies the CNPJ predicate when that
stage is active. -/
theorem filtrar_cnpjMatch {f : Filtros} {l : List Unidade} {u : Unidade}
    (h : u ∈ filtrar f l) (hg : (decide (f.cnpj ≠ "")) = true) :
    cnpjMatch f u = true :=
  condFilter_pred (mem_of_filtroNome h) hg

/-- A survivor of the four stages satisfies the name predicate when that
stage is active. -/
theorem filtrar_nomeMatch {f : Filtros} {l : List Unidade} {u : Unidade}
    (h : u ∈ filtrar f l) (hg : (decide (f.nome ≠ "")) = true) :
    nomeMatch f u = true :=
  condFilter_pred h hg

/-- The four filter stages leave unchanged any list all of whose
elements already survived the four stages (on any input). -/
theorem filtrar_fixed {f : Filtros} {m l : List Unidade}
    (hsub : ∀ u, u ∈ m → u ∈ filtrar f l) : filtrar f m = m := by
  have hr : filtroRedes f m = m :=
    condFilter_eq_self fun u hu hg => filtrar_redeMatch (hsub u hu) hg
  have he : filtroEstado f m = m :=
    condFilter_eq_self fun u hu hg => filtrar_estadoMatch (hsub u hu) hg
  have hc : filtroCnpj f m = m :=
    condFilter_eq_self fun u hu hg => filtrar_cnpjMatch (hsub u hu) hg
  have hn : filtroNome f m = m :=
    condFilter_eq_self fun u hu hg => filtrar_nomeMatch (hsub u hu) hg
  show filtroNome f (filtroCnpj f (filtroEstado f (filtroRedes f m))) = m
  rw [hr, he, hc, hn]

/-- The four filter stages yield a sublist of the input, hence preserve
relative order. -/
theorem filtrar_sublist (f : Filtros) (l : List Unidade) :
    (filtrar f l).Sublist l :=
  ((condFilter_sublist _ _ _).trans
    ((condFilter_sublist _ _ _).trans
      ((condFilter_sublist _ _ _).trans (condFilter_sublist _ _ _))))

/-- The sort step neither adds nor removes units. -/
theorem mem_sortStep {f : Filtros} {l : List Unidade} {u : Unidade} :
    u ∈ sortStep f l ↔ u ∈ l := by
  unfold sortStep
  split
  · exact List.mem_mergeSort
  · split
    · exact List.mem_mergeSort
    · split
      · exact List.mem_mergeSort
      · split
        · exact List.mem_mergeSort
        · exact Iff.rfl

/-- Under mode `nome_az`, the sort step is an ascending stable sort on
the name key. -/
theorem sortStep_nome_az {f : Filtros} (h : f.ordenar = "nome_az")
    (l : List Unidade) :
    sortStep f l = l.mergeSort (fun a b => strLe (chaveNome a) (chaveNome b)) := by
  unfold sortStep
  rw [h]
  simp

/-- Under mode `nome_za`, the sort step is a descending stable sort on
the name key. -/
theorem sortStep_nome_za {f : Filtros} (h : f.ordenar = "nome_za")
    (l : List Unidade) :
    sortStep f l = l.mergeSort (fun a b => strLe (chaveNome b) (chaveNome a)) := by
  unfold sortStep
  rw [h]
  simp

/-- Under mode `rede_az`, the sort step is an ascending stable sort on
the network key. -/
theorem sortStep_rede_az {f : Filtros} (h : f.ordenar = "rede_az")
    (l : List Unidade) :
    sortStep f l = l.mergeSort (fun a b => strLe (chaveRede a) (chaveRede b)) := by
  unfold sortStep
  rw [h]
  simp

/-- Under mode `rede_za`, the sort step is a descending stable sort on
the network key. -/
theorem sortStep_rede_za {f : Filtros} (h : f.ordenar = "rede_za")
    (l : List Unidade) :
    sortStep f l = l.mergeSort (fun a b => strLe (chaveRede b) (chaveRede a)) := by
  unfold sortStep
  rw [h]
  simp

/-- Under any unrecognized mode, the sort step is the identity. -/
theorem sortStep_none {f : Filtros} (h1 : f.ordenar ≠ "nome_az")
    (h2 : f.ordenar ≠ "nome_za") (h3 : f.ordenar ≠ "rede_az")
    (h4 : f.ordenar ≠ "rede_za") (l : List Unidade) : sortStep f l = l := by
  unfold sortStep
  rw [if_neg h1, if_neg h2, if_neg h3, if_neg h4]

/-- The sort step is idempotent: sorting an already sorted list leaves
it unchanged (stability makes the stable sort of a sorted list the
identity). -/
theorem sortStep_idem (f : Filtros) (l : List Unidade) :
    sortStep f (sortStep f l) = sortStep f l := by
  by_cases h1 : f.ordenar = "nome_az"
  · simp only [sortStep_nome_az h1]
    exact List.mergeSort_of_sorted
      (List.sorted_mergeSort (keyLe_trans chaveNome) (keyLe_total chaveNome) l)
  by_cases h2 : f.ordenar = "nome_za"
  · simp only [sortStep_nome_za h2]
    exact List.mergeSort_of_sorted
      (List.sorted_mergeSort (keyGe_trans chaveNome) (keyGe_total chaveNome) l)
  by_cases h3 : f.ordenar = "rede_az"
  · simp only [sortStep_rede_az h3]
    exact List.mergeSort_of_sorted
      (List.sorted_mergeSort (keyLe_trans chaveRede) (keyLe_total chaveRede) l)
  by_cases h4 : f.ordenar = "rede_za"
  · simp only [sortStep_rede_za h4]
    exact List.mergeSort_of_sorted
      (List.sorted_mergeSort (keyGe_trans chaveRede) (keyGe_total chaveRede) l)
  simp only [sortStep_none h1 h2 h3 h4]

/-- The source's name predicate coincides with the spec-worded one
(lowercase-and-trim both sides, then substring containment). -/
theorem nomeMatch_eq_spec (f : Filtros) (u : Unidade) :
    nomeMatch f u = nomeMatchSpec f u := by
  cases hu : u.nome <;>
    simp [nomeMatch, nomeMatchSpec, truthy, safeText, normalizeString, hu]

/-- The source's network predicate coincides with the amended-claim one
(case-sensitive exact membership). -/
theorem redeMatch_eq_spec (f : Filtros) (u : Unidade) :
    redeMatch f u = redeMatchSpec f u := rfl

/-- The source's CNPJ predicate coincides with the spec-worded one
(verbatim, case-sensitive substring containment). -/
theorem cnpjMatch_eq_spec (f : Filtros) (u : Unidade) :
    cnpjMatch f u = cnpjMatchSpec f u := by
  cases hu : u.cnpj <;> simp [cnpjMatch, cnpjMatchSpec, truthy, safeText, hu]

/-- The source's state predicate coincides with the amended-claim one
(trim and lowercase both sides). -/
theorem estadoMatch_eq_amended (f : Filtros) (u : Unidade) :
    estadoMatch f u = estadoMatchAmended f u := by
  cases hu : u.estado <;> cases he : u.endereco_original <;>
    simp [estadoMatch, estadoMatchAmended, truthy, safeText, normalizeString,
      hu, he]

/-- `criarMarcador` succeeds exactly on units whose two coordinates are
both present and truthy. -/
theorem criarMarcador_isSome (u : Unidade) :
    (criarMarcador u).isSome = (truthyNum u.latitude && truthyNum u.longitude) := by
  unfold criarMarcador
  cases ha : truthyNum u.latitude <;> cases hb : truthyNum u.longitude <;>
    simp [ha, hb]

/-- A unit with a missing coordinate yields no marker. -/
theorem criarMarcador_none {u : Unidade}
    (h : u.latitude = none ∨ u.longitude = none) : criarMarcador u = none := by
  unfold criarMarcador
  rcases h with h | h <;> rw [h] <;> simp [truthyNum]

/-- `criarMarcador`, written as a conditional on the coordinate
truthiness test. -/
theorem criarMarcador_eq (u : Unidade) :
    criarMarcador u =
      if truthyNum u.latitude && truthyNum u.longitude then
        some
          { lat := u.latitude.getD 0, lng := u.longitude.getD 0
            color := redeColor u.rede, popup := makePopupHtml u }
      else none := by
  unfold criarMarcador
  cases ha : truthyNum u.latitude <;> cases hb : truthyNum u.longitude <;>
    simp [ha, hb]

/-- The marker list is the geocoded (present and truthy coordinates)
sublist of the units, one marker each, in order. -/
theorem markersOf_eq (l : List Unidade) :
    markersOf l =
      (l.filter (fun v => truthyNum v.latitude && truthyNum v.longitude)).map
        (fun u =>
          { lat := u.latitude.getD 0, lng := u.longitude.getD 0
            color := redeColor u.rede, popup := makePopupHtml u }) := by
  induction l with
  | nil => rfl
  | cons v t ih =>
    simp only [markersOf] at ih ⊢
    rw [List.filterMap_cons, List.filter_cons, criarMarcador_eq]
    cases hv : (truthyNum v.latitude && truthyNum v.longitude) <;> simp [hv, ih]

/-- Exactly one marker is produced per unit with truthy coordinates. -/
theorem markersOf_length (l : List Unidade) :
    (markersOf l).length =
      (l.filter (fun v => truthyNum v.latitude && truthyNum v.longitude)).length := by
  rw [markersOf_eq, List.length_map]

/-- Marker building distributes over list concatenation. -/
theorem markersOf_append (l₁ l₂ : List Unidade) :
    markersOf (l₁ ++ l₂) = markersOf l₁ ++ markersOf l₂ :=
  List.filterMap_append l₁ l₂ criarMarcador

/-- A unit yielding no marker contributes nothing to the marker list. -/
theorem markersOf_cons_none {u : Unidade} (h : criarMarcador u = none)
    (l : List Unidade) : markersOf (u :: l) = markersOf l := by
  simp [markersOf, List.filterMap_cons, h]

/-- The mode-selected key is the name key under `nome_az`. -/
theorem chaveOrdenacao_nome_az {f : Filtros} (h : f.ordenar = "nome_az") :
    chaveOrdenacao f = chaveNome := by
  funext u
  unfold chaveOrdenacao
  rw [h]
  simp

/-- The mode-selected key is the name key under `nome_za`. -/
theorem chaveOrdenacao_nome_za {f : Filtros} (h : f.ordenar = "nome_za") :
    chaveOrdenacao f = chaveNome := by
  funext u
  unfold chaveOrdenacao
  rw [h]
  simp

/-- The mode-selected key is the network key under `rede_az`. -/
theorem chaveOrdenacao_rede_az {f : Filtros} (h : f.ordenar = "rede_az") :
    chaveOrdenacao f = chaveRede := by
  funext u
  unfold chaveOrdenacao
  rw [h]
  simp

/-- The mode-selected key is the network key under `rede_za`. -/
theorem chaveOrdenacao_rede_za {f : Filtros} (h : f.ordenar = "rede_za") :
    chaveOrdenacao f = chaveRede := by
  funext u
  unfold chaveOrdenacao
  rw [h]
  simp

/-- Stability of the sort step under `nome_az`. -/
theorem stableStep_nome_az {f : Filtros} (h : f.ordenar = "nome_az")
    (l : List Unidade) (k : String) :
    (sortStep f l).filter (fun v => decide (chaveOrdenacao f v = k)) =
      l.filter (fun v => decide (chaveOrdenacao f v = k)) := by
  rw [sortStep_nome_az h, chaveOrdenacao_nome_az h]
  exact mergeSort_key_stable chaveNome k l

/-- Stability of the sort step under `nome_za`. -/
theorem stableStep_nome_za {f : Filtros} (h : f.ordenar = "nome_za")
    (l : List Unidade) (k : String) :
    (sortStep f l).filter (fun v => decide (chaveOrdenacao f v = k)) =
      l.filter (fun v => decide (chaveOrdenacao f v = k)) := by
  rw [sortStep_nome_za h, chaveOrdenacao_nome_za h]
  exact mergeSort_key_stable_desc chaveNome k l

/-- Stability of the sort step under `rede_az`. -/
theorem stableStep_rede_az {f : Filtros} (h : f.ordenar = "rede_az")
    (l : List Unidade) (k : String) :
    (sortStep f l).filter (fun v => decide (chaveOrdenacao f v = k)) =
      l.filter (fun v => decide (chaveOrdenacao f v = k)) := by
  rw [sortStep_rede_az h, chaveOrdenacao_rede_az h]
  exact mergeSort_key_stable chaveRede k l

/-- Stability of the sort step under `rede_za`. -/
theorem stableStep_rede_za {f : Filtros} (h : f.ordenar = "rede_za")
    (l : List Unidade) (k : String) :
    (sortStep f l).filter (fun v => decide (chaveOrdenacao f v = k)) =
      l.filter (fun v => decide (chaveOrdenacao f v = k)) := by
  rw [sortStep_rede_za h, chaveOrdenacao_rede_za h]
  exact mergeSort_key_stable_desc chaveRede k l

/-- The mode-selected comparator is total on all units, whatever the
mode. -/
theorem sortLe_total (f : Filtros) (a b : Unidade) :
    (sortLe f a b || sortLe f b a) = true := by
  by_cases h : f.ordenar = "nome_za" ∨ f.ordenar = "rede_za"
  · simp only [sortLe, if_pos h]
    exact keyGe_total (chaveOrdenacao f) a b
  · simp only [sortLe, if_neg h]
    exact keyLe_total (chaveOrdenacao f) a b

/-- Claim C1, counterexample: with an empty selected-network set (and
every other filter disabled) `applyFilters` returns the full unit list,
not the empty list — the network stage is skipped, not made
unsatisfiable. -/
theorem C1_counterexample :
    applyFilters [uAlpha] fVazio = [uAlpha] ∧ [uAlpha] ≠ ([] : List Unidade) := by
  constructor
  · decide
  · decide

/-- Claim C1 (corrected): an empty selected-network set disables the
network-membership predicate entirely — every unit passes the network
stage — so `applyFilters` applies only the state, tax-identifier and
name filters and the sort step, rather than returning the empty list. -/
theorem C1_empty_network (U : List Unidade) (f : Filtros) (h : f.redes = []) :
    filtroRedes f U = U ∧
    applyFilters U f =
      sortStep f (filtroNome f (filtroCnpj f (filtroEstado f U))) := by
  have hg : filtroRedes f U = U := by
    unfold filtroRedes
    rw [h]
    rfl
  refine ⟨hg, ?_⟩
  show sortStep f (filtrar f U) = _
  unfold filtrar
  rw [hg]

/-- Witness for claim C1 at concrete inputs. -/
theorem C1_witness :
    filtroRedes fVazio [uAlpha] = [uAlpha] ∧
    applyFilters [uAlpha] fVazio =
      sortStep fVazio
        (filtroNome fVazio (filtroCnpj fVazio (filtroEstado fVazio [uAlpha]))) :=
  C1_empty_network [uAlpha] fVazio rfl

/-- Claim C2, counterexample: a unit with both coordinates present but
latitude `0` (the equator) produces no marker — presence of both
coordinates does not suffice, because JS `0` is falsy. -/
theorem C2_counterexample :
    criarMarcador uEquador = none ∧
    uEquador.latitude = some 0 ∧ uEquador.longitude = some 1 := by
  refine ⟨by decide, rfl, rfl⟩

/-- Claim C2 (corrected): `criarMarcador` produces a marker exactly when
both coordinates are present and truthy (nonzero); a unit lacking a
coordinate never contributes a marker wherever it appears in the
rendered list (hence independently of filtering), and exactly one marker
is produced per truthy-coordinate unit. -/
theorem C2_markers (u : Unidade) (l l₁ l₂ : List Unidade)
    (h : u.latitude = none ∨ u.longitude = none) :
    (criarMarcador u).isSome = (truthyNum u.latitude && truthyNum u.longitude) ∧
    criarMarcador u = none ∧
    markersOf (l₁ ++ u :: l₂) = markersOf (l₁ ++ l₂) ∧
    (markersOf l).length =
      (l.filter (fun v => truthyNum v.latitude && truthyNum v.longitude)).length := by
  have hn := criarMarcador_none h
  refine ⟨criarMarcador_isSome u, hn, ?_, markersOf_length l⟩
  rw [markersOf_append, markersOf_append, markersOf_cons_none hn]

/-- Witness for claim C2 at concrete inputs. -/
theorem C2_witness :
    (criarMarcador uVazia).isSome =
      (truthyNum uVazia.latitude && truthyNum uVazia.longitude) ∧
    criarMarcador uVazia = none ∧
    markersOf ([uAlpha] ++ uVazia :: [uAlpha]) = markersOf ([uAlpha] ++ [uAlpha]) ∧
    (markersOf [uAlpha]).length =
      ([uAlpha].filter
        (fun v => truthyNum v.latitude && truthyNum v.longitude)).length :=
  C2_markers uVazia [uAlpha] [uAlpha] [uAlpha] (Or.inl rfl)

/-- Claim C3, counterexample: on a unit with every field absent the
popup's name field is the empty string, not the `'N/A'` placeholder
(the other three fields do default to `'N/A'`). -/
theorem C3_counterexample :
    popupNome uVazia = "" ∧ popupRede uVazia = "N/A" ∧
    popupEndereco uVazia = "N/A" ∧ popupCnpj uVazia = "N/A" ∧
    ("" : String) ≠ "N/A" := by
  refine ⟨rfl, rfl, rfl, rfl, by decide⟩

/-- Claim C3 (corrected): `makePopupHtml` is a total function assembling
the template from the four field values (it never throws); the network,
address and tax-identifier fields each independently default to `'N/A'`
when absent, but the name field defaults to the empty string instead of
the placeholder. -/
theorem C3_popup_defaults (u : Unidade) :
    (u.nome = none → popupNome u = "") ∧
    (u.rede = none → popupRede u = "N/A") ∧
    (u.endereco_original = none → popupEndereco u = "N/A") ∧
    (u.cnpj = none → popupCnpj u = "N/A") ∧
    makePopupHtml u =
      "\n    <div class=\"popup-title\">" ++ popupNome u ++
      "</div>\n    <div style=\"font-size:.9rem;margin-top:6px;\">\n      <strong>Rede:</strong> " ++
      popupRede u ++
      "\n    </div>\n    <div style=\"font-size:.9rem;\">\n      <strong>Endereço:</strong> " ++
      popupEndereco u ++
      "\n    </div>\n    <div style=\"font-size:.85rem;color:var(--muted);margin-top:6px;\">\n      <strong>CNPJ:</strong> " ++
      popupCnpj u ++
      "\n    </div>\n  " := by
  refine ⟨fun h => ?_, fun h => ?_, fun h => ?_, fun h => ?_, rfl⟩ <;>
    simp [popupNome, popupRede, popupEndereco, popupCnpj, jsOrStr, truthy, h]

/-- Witness for claim C3 at a concrete input. -/
theorem C3_witness :
    popupNome uVazia = "" ∧ popupRede uVazia = "N/A" ∧
    popupEndereco uVazia = "N/A" ∧ popupCnpj uVazia = "N/A" :=
  ⟨(C3_popup_defaults uVazia).1 rfl, (C3_popup_defaults uVazia).2.1 rfl,
    (C3_popup_defaults uVazia).2.2.1 rfl, (C3_popup_defaults uVazia).2.2.2.1 rfl⟩

/-- Claim C4, counterexample: a unit whose network differs from the
selected network only in case is filtered out, although the two names
are equal after case normalization — the network filter is
case-sensitive, contradicting the claimed case-insensitive match. -/
theorem C4_counterexample :
    applyFilters [uNovoMixMinusculo] fRedeMaiuscula = [] ∧
    normalizeString (safeText uNovoMixMinusculo.rede) =
      normalizeString "NOVO MIX" := by
  constructor
  · decide
  · decide

/-- Claim C4 (corrected): the name filter is case-insensitive (both
sides trimmed and lowercased before substring containment) and the
tax-identifier filter is case-sensitive substring containment of the
criteria text exactly as it stands in the criteria; but the network
filter is case-sensitive exact membership of the unit's network in the
selected set, not a case-insensitive match. -/
theorem C4_filter_predicates (f : Filtros) (l : List Unidade)
    (hn : f.nome ≠ "") (hr : f.redes ≠ []) (hc : f.cnpj ≠ "") :
    filtroNome f l = l.filter (nomeMatchSpec f) ∧
    filtroRedes f l = l.filter (redeMatchSpec f) ∧
    filtroCnpj f l = l.filter (cnpjMatchSpec f) := by
  have hgr : (f.redes.length != 0) = true := by
    cases hl : f.redes with
    | nil => exact absurd hl hr
    | cons a rest => simp [hl]
  refine ⟨?_, ?_, ?_⟩
  · show condFilter (decide (f.nome ≠ "")) (nomeMatch f) l = _
    rw [condFilter_of_true (decide_eq_true hn)]
    exact List.filter_congr fun u _ => nomeMatch_eq_spec f u
  · show condFilter (f.redes.length != 0) (redeMatch f) l = _
    rw [condFilter_of_true hgr]
    exact List.filter_congr fun u _ => redeMatch_eq_spec f u
  · show condFilter (decide (f.cnpj ≠ "")) (cnpjMatch f) l = _
    rw [condFilter_of_true (decide_eq_true hc)]
    exact List.filter_congr fun u _ => cnpjMatch_eq_spec f u

/-- Criteria activating the network, CNPJ and name filters at once. -/
def fTresFiltros : Filtros :=
  { redes := ["Novo Mix"], estado := "Todos", cnpj := "1", nome := "a", ordenar := "" }

/-- Witness for claim C4 at concrete inputs. -/
theorem C4_witness :
    filtroNome fTresFiltros [uAlpha] = [uAlpha].filter (nomeMatchSpec fTresFiltros) ∧
    filtroRedes fTresFiltros [uAlpha] = [uAlpha].filter (redeMatchSpec fTresFiltros) ∧
    filtroCnpj fTresFiltros [uAlpha] = [uAlpha].filter (cnpjMatchSpec fTresFiltros) :=
  C4_filter_predicates fTresFiltros [uAlpha] (by decide) (by decide) (by decide)

/-- Claim C5, counterexample: a unit whose state field is `" SP "`
(surrounding whitespace) is accepted by the state filter for the
selected state `"SP"`, although the claim's predicate — plain
case-insensitive equality, or case-insensitive address containment —
rejects it: the code also trims both sides. -/
theorem C5_counterexample :
    applyFilters [uEstadoEspacos] fEstadoSP = [uEstadoEspacos] ∧
    estadoMatchClaim fEstadoSP uEstadoEspacos = false := by
  constructor
  · decide
  · decide

/-- Claim C5 (corrected): with a specific (non-`'Todos'`) state
selected, the state stage keeps exactly the units accepted by the
amended predicate: the unit's state, present and non-empty, equals the
selected state after both sides are trimmed and lowercased, or the
unit's address, present and non-empty, contains `-{state}` after both
sides are trimmed and lowercased. -/
theorem C5_state_filter (f : Filtros) (l : List Unidade) (u : Unidade)
    (h1 : f.estado ≠ "") (h2 : f.estado ≠ "Todos") :
    filtroEstado f l = l.filter (estadoMatchAmended f) ∧
    (u ∈ filtroEstado f l ↔ u ∈ l ∧ estadoMatchAmended f u = true) := by
  have hg : (decide (f.estado ≠ "") && decide (f.estado ≠ "Todos")) = true := by
    rw [decide_eq_true h1, decide_eq_true h2]
    rfl
  have he : filtroEstado f l = l.filter (estadoMatchAmended f) := by
    show condFilter _ (estadoMatch f) l = _
    rw [condFilter_of_true hg]
    exact List.filter_congr fun v _ => estadoMatch_eq_amended f v
  refine ⟨he, ?_⟩
  rw [he]
  simp [List.mem_filter]

/-- Witness for claim C5 at concrete inputs. -/
theorem C5_witness :
    filtroEstado fEstadoSP [uEstadoEspacos] =
      [uEstadoEspacos].filter (estadoMatchAmended fEstadoSP) ∧
    (uEstadoEspacos ∈ filtroEstado fEstadoSP [uEstadoEspacos] ↔
      uEstadoEspacos ∈ [uEstadoEspacos] ∧
        estadoMatchAmended fEstadoSP uEstadoEspacos = true) :=
  C5_state_filter fEstadoSP [uEstadoEspacos] uEstadoEspacos (by decide) (by decide)

/-- Claim C6: the filter-and-sort pipeline is idempotent — applying
`applyFilters` to its own output with the same criteria yields the same
list (every survivor still passes every active predicate, and the stable
sort of a sorted list is the identity). -/
theorem C6_idempotent (U : List Unidade) (f : Filtros) :
    applyFilters (applyFilters U f) f = applyFilters U f := by
  show sortStep f (filtrar f (sortStep f (filtrar f U))) = sortStep f (filtrar f U)
  rw [filtrar_fixed (l := U) fun u hu => mem_sortStep.mp hu, sortStep_idem]

/-- Claim C7: for each of the four recognized sort modes, sorting is
total (the comparator relates every pair of units in at least one
direction) and stable (units sharing a sort-key value keep their
relative input order, stated as invariance of every key-class sublist);
a unit with a missing or empty sort key has the empty string as its key;
and sorting is applied only after all four filter stages. -/
theorem C7_sort_stable (f : Filtros) (l : List Unidade) (k : String)
    (u : Unidade)
    (hmode : f.ordenar = "nome_az" ∨ f.ordenar = "nome_za" ∨
      f.ordenar = "rede_az" ∨ f.ordenar = "rede_za")
    (hnome : u.nome = none ∨ u.nome = some "")
    (hrede : u.rede = none ∨ u.rede = some "") :
    chaveNome u = "" ∧ chaveRede u = "" ∧
    (∀ a b : Unidade, (sortLe f a b || sortLe f b a) = true) ∧
    (∀ U, applyFilters U f = sortStep f (filtrar f U)) ∧
    (sortStep f l).filter (fun v => decide (chaveOrdenacao f v = k)) =
      l.filter (fun v => decide (chaveOrdenacao f v = k)) := by
  refine ⟨?_, ?_, sortLe_total f, fun U => rfl, ?_⟩
  · rcases hnome with h | h <;> simp [chaveNome, jsOrStr, truthy, h]
  · rcases hrede with h | h <;> simp [chaveRede, jsOrStr, truthy, h]
  · rcases hmode with h | h | h | h
    · exact stableStep_nome_az h l k
    · exact stableStep_nome_za h l k
    · exact stableStep_rede_az h l k
    · exact stableStep_rede_za h l k

/-- Criteria selecting the ascending name sort and no filters. -/
def fNomeAz : Filtros :=
  { redes := [], estado := "Todos", cnpj := "", nome := "", ordenar := "nome_az" }

/-- Witness for claim C7 at concrete inputs. -/
theorem C7_witness :
    chaveNome uVazia = "" ∧ chaveRede uVazia = "" ∧
    (∀ a b : Unidade, (sortLe fNomeAz a b || sortLe fNomeAz b a) = true) ∧
    (∀ U, applyFilters U fNomeAz = sortStep fNomeAz (filtrar fNomeAz U)) ∧
    (sortStep fNomeAz [uAlpha]).filter
        (fun v => decide (chaveOrdenacao fNomeAz v = "Alpha")) =
      [uAlpha].filter (fun v => decide (chaveOrdenacao fNomeAz v = "Alpha")) :=
  C7_sort_stable fNomeAz [uAlpha] "Alpha" uVazia (Or.inl rfl) (Or.inl rfl)
    (Or.inl rfl)

/-- Claim C8: if either startup fetch-and-parse step fails,
`carregarDados` ends with the error status text, the in-memory unit list
stays empty and no markers are rendered — in particular no partial unit
rendering occurs, and each fetch outcome is consumed exactly once (no
retry). -/
theorem C8_load_failure (fr : Except Unit (List String))
    (fa : Except Unit (List Unidade)) (f : Filtros)
    (h : fr.isOk = false ∨ fa.isOk = false) :
    carregarDados fr fa f =
      { status := "Erro ao carregar dados.", unidades := [], markers := [] } := by
  cases fr with
  | error e => rfl
  | ok rs =>
    cases fa with
    | error e => rfl
    | ok us => rcases h with h | h <;> simp [Except.isOk, Except.toBool] at h

/-- Witness for claim C8 at concrete inputs. -/
theorem C8_witness :
    carregarDados (Except.error ()) (Except.ok []) fVazio =
      { status := "Erro ao carregar dados.", unidades := [], markers := [] } :=
  C8_load_failure (Except.error ()) (Except.ok []) fVazio (Or.inl rfl)

/-- Claim C9: an `applyFilters` pass does not mutate the full in-memory
unit list: the `unidades` field of the global state is unchanged (the
pipeline works on a copy), and every displayed unit is literally one of
the original elements — no element is altered. -/
theorem C9_no_mutation (s : AppState) (f : Filtros) (u : Unidade) :
    (applyFiltersState s f).unidades = s.unidades ∧
    (u ∈ (applyFiltersState s f).unidadesAtuais → u ∈ s.unidades) :=
  ⟨rfl, fun h => mem_of_filtrar (mem_sortStep.mp h)⟩

/-- Witness for claim C9 at concrete inputs. -/
theorem C9_witness :
    uAlpha ∈ [uAlpha] ∧
    (applyFiltersState
        { unidades := [uAlpha], unidadesAtuais := [], status := "" }
        fVazio).unidades = [uAlpha] :=
  ⟨(C9_no_mutation { unidades := [uAlpha], unidadesAtuais := [], status := "" }
      fVazio uAlpha).2 (by decide),
    (C9_no_mutation { unidades := [uAlpha], unidadesAtuais := [], status := "" }
      fVazio uAlpha).1⟩

/-- Claim C10: with a sort-mode value that is none of the four
recognized ones, `applyFilters` performs no sorting at all: the result
is exactly the filtered list, a sublist of the full unit list, so the
surviving units keep their relative input order. -/
theorem C10_no_sort (U : List Unidade) (f : Filtros)
    (h1 : f.ordenar ≠ "nome_az") (h2 : f.ordenar ≠ "nome_za")
    (h3 : f.ordenar ≠ "rede_az") (h4 : f.ordenar ≠ "rede_za") :
    applyFilters U f = filtrar f U ∧ (applyFilters U f).Sublist U := by
  have he : applyFilters U f = filtrar f U := by
    show sortStep f (filtrar f U) = filtrar f U
    exact sortStep_none h1 h2 h3 h4 _
  exact ⟨he, he ▸ filtrar_sublist f U⟩

/-- Witness for claim C10 at concrete inputs. -/
theorem C10_witness :
    applyFilters [uAlpha] fVazio = filtrar fVazio [uAlpha] ∧
    (applyFilters [uAlpha] fVazio).Sublist [uAlpha] :=
  C10_no_sort [uAlpha] fVazio (by decide) (by decide) (by decide) (by decide)
